import Mathlib

/-
  Verification development for the pattern-ocr-plates repository.

  Shallow embedding of the stateful core of the app:
  * the Compliance Evaluator (the `compliance` memo in the page component),
  * the Capture Loop Controller (`captureFrame`, `startLiveCamera`,
    `pauseLiveCamera`, `stopLiveCamera` and the refs they manipulate),
  * the two Recognition Gateway variants (the concurrent `POST` route and
    the vision-gated `POST` route).

  Numeric confidence scores are modelled as rationals; JavaScript strings
  are Lean `String`s; nullable/optional JSON fields are `Option`s; the
  registry (`CAR_DB`, loaded from a JSON data file that is not part of the
  code) is a parameter of type `List CarRecord`.
-/

set_option maxHeartbeats 1000000

/-- JavaScript `String.prototype.toLowerCase`, modelled per character so
that concrete evaluation reduces in the kernel. -/
def toLowerStr (s : String) : String := ⟨s.data.map Char.toLower⟩

/-- JavaScript `String.prototype.toUpperCase`. -/
def toUpperStr (s : String) : String := ⟨s.data.map Char.toUpper⟩

/-- JavaScript `String.prototype.trim`: strip leading and trailing
whitespace. -/
def trimStr (s : String) : String :=
  ⟨((s.data.dropWhile Char.isWhitespace).reverse.dropWhile Char.isWhitespace).reverse⟩

/-- Source `normalizeValue` from the page component, specialised to a present
string argument: trim then lowercase. -/
def normValue (s : String) : String := toLowerStr (trimStr s)

/-- Source `normalizeValue(value)` for a nullable argument: `null`/`undefined`
maps to `null`, otherwise trim + lowercase (an empty string stays an empty
string, it is not coerced to `null`). -/
def normalizeValue (v : Option String) : Option String := v.map normValue

/-- One OCR plate candidate (`PlateResult`); only the fields the verified
logic reads (`plate`, `score`) are modelled.  `plate` is optional because
the code reads it with optional chaining (`topResult?.plate?.…`). -/
structure PlateResult where
  plate : Option String
  score : Rat
  deriving DecidableEq, Repr

/-- The OCR half of a scan response (`PlateResponse`); an absent `results`
field behaves exactly like an empty list everywhere the verified logic
looks, so it is modelled as a plain list. -/
structure PlateResponse where
  results : List PlateResult
  deriving DecidableEq, Repr

/-- One ranked make/model prediction from the vision service. -/
structure VisionPrediction where
  label : String
  confidence : Rat
  deriving DecidableEq, Repr

/-- The dominant-colour prediction from the vision service. -/
structure VehicleColor where
  name : String
  confidence : Rat
  deriving DecidableEq, Repr

/-- The vision payload (`VisionResponse`); `color` is optional because the
code reads it as `vision?.color?.name ?? null`.  Display-only fields
(`detection` box/label) are omitted. -/
structure VisionResponse where
  makes : List VisionPrediction
  models : List VisionPrediction
  color : Option VehicleColor
  deriving DecidableEq, Repr

inductive VisionStatus where
  | success
  | error
  deriving DecidableEq, Repr

/-- The unified recognition result held in component state
(`ScanResponse`): OCR payload, optional vision payload, vision status. -/
structure ScanResponse where
  ocr : PlateResponse
  vision : Option VisionResponse
  visionStatus : VisionStatus
  deriving DecidableEq, Repr

/-- A registry record (`CarRecord`), plate already canonicalised to
uppercase at load time. -/
structure CarRecord where
  plate : String
  make : String
  model : String
  color : String
  wanted : Bool
  deriving DecidableEq, Repr

/-- Source `ComplianceState` from the page component.  `matchFound` stands for the
source's `match` status (a reserved word in Lean). -/
inductive ComplianceState where
  | noPlate
  | visionMissing (record : Option CarRecord)
  | unknown
  | matchFound (record : CarRecord)
  | mismatch (record : CarRecord) (mismatches : List String)
  deriving DecidableEq, Repr

/-- Source `topResult` / `topLivePlate`: `scanResult?.ocr?.results?.[0]`. -/
def topResult (r : ScanResponse) : Option PlateResult := r.ocr.results.head?

/-- Source `primaryPlate` / `livePlate`: `topResult?.plate?.toUpperCase() ?? null`.
Note: uppercase only, no trim. -/
def primaryPlate (r : ScanResponse) : Option String :=
  (topResult r |>.bind PlateResult.plate).map toUpperStr

/-- Source `visionAvailable`: `visionStatus === "success" && Boolean(scanResult?.vision)`. -/
def visionAvailable (r : ScanResponse) : Bool :=
  (r.visionStatus == VisionStatus.success) && r.vision.isSome

/-- Source `topMakeLabels`: first three make predictions' labels, `[]` when the
vision payload is absent. -/
def topMakeLabels (r : ScanResponse) : List String :=
  match r.vision with
  | none => []
  | some v => (v.makes.take 3).map VisionPrediction.label

/-- Source `topModelLabels`: first three model predictions' labels. -/
def topModelLabels (r : ScanResponse) : List String :=
  match r.vision with
  | none => []
  | some v => (v.models.take 3).map VisionPrediction.label

/-- Source `topColorLabel`: `scanResult?.vision?.color?.name ?? null`. -/
def topColorLabel (r : ScanResponse) : Option String :=
  (r.vision.bind VisionResponse.color).map VehicleColor.name

/-- Source `topMakeLabels.join(", ") || "not available"` — JavaScript `||`
falls back exactly when the joined string is empty. -/
def joinOrNA (labels : List String) : String :=
  let j := String.intercalate (", ") labels
  if j == "" then "not available" else j

/-- Mismatch message pushed when the make prediction list is empty after
normalisation. -/
def noMakePredictionsMsg (make : String) : String :=
  "Expected make \"" ++ make ++ "\" but no make predictions were returned."

/-- Mismatch message pushed when the registry make is not among the
normalised predictions. -/
def wrongMakeMsg (make : String) (labels : List String) : String :=
  "Expected make \"" ++ make ++ "\" but predictions were: " ++ joinOrNA labels ++ "."

/-- Mismatch message pushed when the model prediction list is empty after
normalisation. -/
def noModelPredictionsMsg (model : String) : String :=
  "Expected model \"" ++ model ++ "\" but no model predictions were returned."

/-- Mismatch message pushed when the registry model is not among the
normalised predictions. -/
def wrongModelMsg (model : String) (labels : List String) : String :=
  "Expected model \"" ++ model ++ "\" but predictions were: " ++ joinOrNA labels ++ "."

/-- Colour mismatch message; the code writes `topColorLabel ?? "Unknown"`. -/
def colorMsg (color : String) (label : Option String) : String :=
  "Expected color \"" ++ color ++ "\" but detected \"" ++ label.getD ("Unknown") ++ "\"."

/-- Source `topMakeLabels.map(label => normalizeValue(label)).filter(Boolean)`:
normalise the (at most three) labels and drop the ones that normalise to
the empty string. -/
def makePredictions (labels : List String) : List String :=
  (labels.map normValue).filter (fun v => !(v == ""))

/-- The make branch of the mismatch accumulation in `compliance`:
skipped when the registry make normalises to the empty string (JS
truthiness of `recordMake`); otherwise "no predictions" when the filtered
prediction list is empty, "wrong value" when the registry make is not a
member. -/
def makeReasons (rec : CarRecord) (labels : List String) : List String :=
  let recordMake := normValue rec.make
  if recordMake == "" then []
  else
    let preds := makePredictions labels
    if preds.isEmpty then [noMakePredictionsMsg rec.make]
    else if !(preds.contains recordMake) then [wrongMakeMsg rec.make labels]
    else []

/-- The model branch of the mismatch accumulation, same rule as make. -/
def modelReasons (rec : CarRecord) (labels : List String) : List String :=
  let recordModel := normValue rec.model
  if recordModel == "" then []
  else
    let preds := makePredictions labels
    if preds.isEmpty then [noModelPredictionsMsg rec.model]
    else if !(preds.contains recordModel) then [wrongModelMsg rec.model labels]
    else []

/-- The colour branch: `if (recordColor && detectedColor && recordColor !==
detectedColor)` — both normalised values must be truthy (non-null,
non-empty) and differ. -/
def colorReasons (rec : CarRecord) (colorLabel : Option String) : List String :=
  let recordColor := normValue rec.color
  match normalizeValue colorLabel with
  | none => []
  | some d =>
    if !(recordColor == "") && !(d == "") && !(recordColor == d) then
      [colorMsg rec.color colorLabel]
    else []

/-- The full ordered mismatch list pushed by `compliance`: make reasons,
then model reasons, then colour reasons. -/
def mismatchesFor (rec : CarRecord) (r : ScanResponse) : List String :=
  makeReasons rec (topMakeLabels r) ++ modelReasons rec (topModelLabels r)
    ++ colorReasons rec (topColorLabel r)

/-- The Compliance Evaluator: the `compliance` memo of the page component
(`liveCompliance` is the same code over the live slot), with the registry
`CAR_DB` made an explicit parameter. -/
def compliance (db : List CarRecord) (r : ScanResponse) : ComplianceState :=
  match primaryPlate r with
  | none => ComplianceState.noPlate
  | some plate =>
    if plate == "" then ComplianceState.noPlate
    else
      let record := db.find? (fun entry => entry.plate == plate)
      if !(visionAvailable r) then ComplianceState.visionMissing record
      else
        match record with
        | none => ComplianceState.unknown
        | some rec =>
          let mismatches := mismatchesFor rec r
          if mismatches.isEmpty then ComplianceState.matchFound rec
          else ComplianceState.mismatch rec mismatches

/-- Spec-side candidate selection, written from the spec's words for
comparison with the code ("highest score, ties broken by original order —
first in the upstream's list wins"). -/
def specTopCandidate (results : List PlateResult) : Option PlateResult :=
  results.foldl
    (fun best cand =>
      match best with
      | none => some cand
      | some b => if cand.score > b.score then some cand else some b)
    none

/-- Spec-side canonicalisation, written from the spec's words ("trim,
uppercase") for comparison with the code. -/
def specCanonicalPlate (results : List PlateResult) : Option String :=
  (specTopCandidate results |>.bind PlateResult.plate).map
    (fun p => toUpperStr (trimStr p))

/- ===================== Recognition Gateway ===================== -/

/-- Outcome of one upstream `fetch`: a transport-level rejection, or an
HTTP response with `ok` flag, status code and parsed JSON body. -/
inductive FetchOutcome (α : Type) where
  | transportFail (msg : String)
  | resp (ok : Bool) (status : Nat) (body : α)
  deriving DecidableEq, Repr

/-- The OCR upstream's JSON body: a `results` array and an optional
`detail` error string. -/
structure OcrJson where
  results : List PlateResult
  detail : Option String
  deriving DecidableEq, Repr

/-- Source `detection` object of the vision upstream's body; only `status` is
read by the gateways. -/
structure VisionDetection where
  status : Option String
  deriving DecidableEq, Repr

/-- The vision upstream's JSON body as the gateways read it
(`VisionApiResponse`): optional `detection` and optional `detail`. -/
structure VisionApiResponse where
  detection : Option VisionDetection
  detail : Option String
  deriving DecidableEq, Repr

/-- Body of a gateway (`/api/plate`) response. -/
inductive GatewayBody where
  /-- Error body (plus pass-through details, not modelled). -/
  | errorBody (error : String)
  /-- Concurrent-variant success body `{ ocr, vision }`. -/
  | okBody (ocr : OcrJson) (vision : VisionApiResponse)
  /-- Gated-variant body
  `{ ocr: { results }, ocrStatus, ocrSkipReason, vision, visionStatus, visionError }`. -/
  | gatedBody (ocrResults : List PlateResult) (ocrStatus : String)
      (ocrSkipReason : Option String) (vision : Option VisionApiResponse)
      (visionStatus : VisionStatus) (visionError : Option String)
  deriving DecidableEq, Repr

/-- A gateway response: HTTP status plus JSON body. -/
structure GatewayResponse where
  status : Nat
  body : GatewayBody
  deriving DecidableEq, Repr

/-- JavaScript `a || b` for a nullable string `a`: the default is used when
`a` is null/undefined or empty. -/
def orDefault (v : Option String) (d : String) : String :=
  match v with
  | none => d
  | some s => if s == "" then d else s

/-- The Concurrent gateway variant (`POST` in `app/api/plate/route.ts`):
fire both upstream requests, await both; a transport failure of either one
rejects `Promise.all` and lands in the catch-all; a non-2xx OCR response
fails the call with the OCR status; a non-2xx vision response fails the
call with the vision status; otherwise return `{ ocr, vision }`. -/
def concurrentPOST (hasKey : Bool) (filePresent : Bool)
    (ocr : FetchOutcome OcrJson) (vision : FetchOutcome VisionApiResponse) :
    GatewayResponse :=
  if !hasKey then
    ⟨500, GatewayBody.errorBody ("Server misconfiguration. Missing Plate OCR API key.")⟩
  else if !filePresent then
    ⟨400, GatewayBody.errorBody ("Image file is required.")⟩
  else
    match ocr, vision with
    | FetchOutcome.transportFail _, _ =>
      ⟨500, GatewayBody.errorBody ("Unexpected server error. Please try again.")⟩
    | _, FetchOutcome.transportFail _ =>
      ⟨500, GatewayBody.errorBody ("Unexpected server error. Please try again.")⟩
    | FetchOutcome.resp ocrOk ocrStatus ocrBody, FetchOutcome.resp vOk vStatus vBody =>
      if !ocrOk then
        ⟨ocrStatus, GatewayBody.errorBody (orDefault ocrBody.detail ("Plate OCR request failed."))⟩
      else if !vOk then
        ⟨vStatus, GatewayBody.errorBody (orDefault vBody.detail ("Vision model request failed."))⟩
      else
        ⟨200, GatewayBody.okBody ocrBody vBody⟩

/-- The gated variant's vision phase: the `(visionData, visionStatus,
visionError)` triple after its inner try/catch. -/
def gatedVisionOutcome (vision : FetchOutcome VisionApiResponse) :
    Option VisionApiResponse × VisionStatus × Option String :=
  match vision with
  | FetchOutcome.transportFail msg => (none, VisionStatus.error, some msg)
  | FetchOutcome.resp ok _ body =>
    if ok then (some body, VisionStatus.success, none)
    else (none, VisionStatus.error,
      some (body.detail.getD ("Vision model request failed.")))

/-- Source `shouldCallOcr`: vision succeeded and
`visionData?.detection?.status?.toLowerCase?.() === "detected"`. -/
def gatedShouldCallOcr (vision : FetchOutcome VisionApiResponse) : Bool :=
  let t := gatedVisionOutcome vision
  (t.2.1 == VisionStatus.success) &&
    (((t.1.bind VisionApiResponse.detection).bind VisionDetection.status).map toLowerStr
      == some ("detected"))

/-- The Gated gateway variant (`POST` in the vision-gated route): call
vision first; call OCR only if `shouldCallOcr`; a non-2xx OCR response
still fails the call; otherwise answer 200 with either the OCR pass-through
(`ocrStatus: "success"`) or an OCR-skipped body with empty `results` and a
skip reason. -/
def gatedPOST (filePresent : Bool) (vision : FetchOutcome VisionApiResponse)
    (ocr : FetchOutcome OcrJson) : GatewayResponse :=
  if !filePresent then
    ⟨400, GatewayBody.errorBody ("Image file is required.")⟩
  else
    let t := gatedVisionOutcome vision
    let visionData := t.1
    let visionStatus := t.2.1
    let visionError := t.2.2
    if gatedShouldCallOcr vision then
      match ocr with
      | FetchOutcome.transportFail _ =>
        ⟨500, GatewayBody.errorBody ("Unexpected server error. Please try again.")⟩
      | FetchOutcome.resp ok status body =>
        if !ok then
          ⟨status, GatewayBody.errorBody (orDefault body.detail ("Plate OCR request failed."))⟩
        else
          ⟨200, GatewayBody.gatedBody body.results ("success") none
            visionData visionStatus visionError⟩
    else
      let reason :=
        if visionStatus == VisionStatus.success then "Vehicle not detected, OCR skipped."
        else visionError.getD ("Vision model unavailable, OCR skipped.")
      ⟨200, GatewayBody.gatedBody [] ("skipped") (some reason)
        visionData visionStatus visionError⟩

/-- True when the vision upstream itself failed (transport error or
non-2xx response). -/
def visionFailed (vision : FetchOutcome VisionApiResponse) : Bool :=
  match vision with
  | FetchOutcome.transportFail _ => true
  | FetchOutcome.resp ok _ _ => !ok

/- ===================== Capture Loop Controller ===================== -/

/-- State of the live-capture controller: the refs and React state of the
page component.  `stream` is the held media stream as a list of track
liveness flags; `pending` lists the in-flight capture operations, each
entry recording whether the frame encode (`canvas.toBlob`) will succeed
(and hence whether an HTTP request is actually issued). -/
structure ControllerState where
  /-- Source `isLiveReady` / `liveReadyRef`. -/
  ready : Bool
  /-- Source `isLivePaused` / `livePausedRef`. -/
  paused : Bool
  /-- Source `isSendingRef`: the in-flight guard. -/
  sending : Bool
  /-- Source `loopRef`: whether the periodic interval timer is armed. -/
  timer : Bool
  /-- Source `streamRef`: held camera stream and its tracks' live flags. -/
  stream : Option (List Bool)
  /-- whether `video.srcObject` is attached. -/
  videoSrc : Bool
  /-- Source `liveResult`. -/
  liveResult : Option ScanResponse
  /-- Source `liveError`. -/
  liveError : Option String
  /-- Source `liveStatus`. -/
  liveStatus : String
  /-- in-flight capture operations started by `captureFrame`. -/
  pending : List Bool
  deriving DecidableEq, Repr

/-- Parsed outcome of one capture's round trip: the body applied on
success, or the thrown/caught error message. -/
inductive CaptureOutcome where
  | ok (data : ScanResponse)
  | fail (msg : String)
  deriving DecidableEq, Repr

/-- Externally scheduled controller events.  `start` carries whether
`navigator.mediaDevices` exists and whether `getUserMedia` succeeds;
`tick` is one `captureFrame` invocation (from the interval timer or the
immediate `setTimeout`) carrying whether the video/canvas pre-checks pass
and whether `canvas.toBlob` will produce a blob; `resolve` is the
continuation of the oldest in-flight capture. -/
inductive Event where
  | start (mediaAvail : Bool) (cameraOk : Bool)
  | pause
  | stop
  | tick (pre : Bool) (blob : Bool)
  | resolve (outcome : CaptureOutcome)
  deriving DecidableEq, Repr

/-- One controller transition, a faithful rendering of `startLiveCamera`,
`pauseLiveCamera`, `stopLiveCamera`, and the two halves of `captureFrame`
(the synchronous prologue that checks the guard and sets it, and the
asynchronous continuation that applies the outcome and clears it in
`finally`). -/
def step (s : ControllerState) : Event → ControllerState
  | Event.start mediaAvail cameraOk =>
    if s.ready && !s.paused then s
    else if !mediaAvail then
      { s with liveError := some ("Camera is not available in this browser."),
               liveStatus := "Camera idle" }
    else if s.paused then
      { s with paused := false, timer := true,
               liveStatus := "Streaming frames (1 fps)" }
    else if cameraOk then
      { s with stream := some [true], videoSrc := true, ready := true,
               paused := false, liveResult := none, liveError := none,
               timer := true, liveStatus := "Streaming frames (1 fps)" }
    else
      { s with liveError := some ("Unable to access the camera. Please check browser permissions."),
               liveStatus := "Camera idle" }
  | Event.pause =>
    if !s.ready || s.paused then s
    else
      { s with timer := false, paused := true,
               liveStatus := "Paused (camera preview still running)" }
  | Event.stop =>
    { s with timer := false, stream := none, videoSrc := false,
             ready := false, paused := false, liveResult := none,
             liveStatus := "Camera idle", liveError := none }
  | Event.tick pre blob =>
    if s.ready && !s.paused && !s.sending && pre then
      { s with sending := true, pending := s.pending ++ [blob] }
    else s
  | Event.resolve outcome =>
    match s.pending with
    | [] => s
    | op :: rest =>
      if op then
        match outcome with
        | CaptureOutcome.ok d =>
          { s with liveResult := some d, liveError := none,
                   sending := false, pending := rest }
        | CaptureOutcome.fail m =>
          { s with liveError := some m, sending := false, pending := rest }
      else
        { s with liveError := some ("Unable to capture camera frame."),
                 sending := false, pending := rest }

/-- Initial controller state: camera idle, nothing in flight. -/
def initState : ControllerState :=
  { ready := false, paused := false, sending := false, timer := false,
    stream := none, videoSrc := false, liveResult := none,
    liveError := none, liveStatus := "Camera idle", pending := [] }

/-- Run a sequence of controller events from the initial state. -/
def run (evs : List Event) : ControllerState := evs.foldl step initState

/-- The single-flight invariant: the guard is set exactly while a capture
is in flight, and at most one capture is ever in flight. -/
def SingleFlightInv (s : ControllerState) : Prop :=
  s.sending = !s.pending.isEmpty ∧ s.pending.length ≤ 1

/- ===================== Helper lemmas ===================== -/

theorem singleFlight_step (s : ControllerState) (e : Event)
    (h : SingleFlightInv s) : SingleFlightInv (step s e) := by
  obtain ⟨h1, h2⟩ := h
  cases e with
  | start mediaAvail cameraOk =>
    simp only [step, SingleFlightInv]
    split_ifs <;> exact ⟨h1, h2⟩
  | pause =>
    simp only [step, SingleFlightInv]
    split_ifs <;> exact ⟨h1, h2⟩
  | stop => exact ⟨h1, h2⟩
  | tick pre blob =>
    simp only [step, SingleFlightInv]
    split_ifs with hc
    · simp only [Bool.and_eq_true, Bool.not_eq_true'] at hc
      have hpend : s.pending = [] := by
        have hs := hc.1.2
        rw [hs] at h1
        simpa [List.isEmpty_iff] using h1.symm
      simp [hpend]
    · exact ⟨h1, h2⟩
  | resolve outcome =>
    simp only [step]
    cases hp : s.pending with
    | nil => exact ⟨h1, h2⟩
    | cons op rest =>
      have hrest : rest = [] := by
        rw [hp] at h2
        simpa using h2
      subst hrest
      cases op <;> cases outcome <;> exact ⟨rfl, by simp⟩

theorem singleFlight_foldl :
    ∀ (evs : List Event) (s : ControllerState),
      SingleFlightInv s → SingleFlightInv (evs.foldl step s)
  | [], _, h => h
  | e :: rest, s, h => singleFlight_foldl rest (step s e) (singleFlight_step s e h)

theorem singleFlightInv_run (evs : List Event) : SingleFlightInv (run evs) :=
  singleFlight_foldl evs initState ⟨rfl, by simp [initState]⟩

/- ===================== Claim theorems ===================== -/

/-- C1 (confirmed).  Single-flight invariant of the capture loop: after any
sequence of controller events, at most one capture operation is
outstanding; a capture tick is a no-op (the state is unchanged) whenever
the controller is not live, is paused, or still has a capture in flight;
and resolving an outstanding capture — whether it succeeded or failed —
always leaves the in-flight guard cleared. -/
theorem captureLoop_single_flight (evs : List Event) :
    (run evs).pending.length ≤ 1
    ∧ (∀ pre blob,
        ((run evs).ready = false ∨ (run evs).paused = true ∨ (run evs).sending = true) →
          step (run evs) (Event.tick pre blob) = run evs)
    ∧ (∀ outcome, (step (run evs) (Event.resolve outcome)).sending = false) := by
  obtain ⟨h1, h2⟩ := singleFlightInv_run evs
  refine ⟨h2, ?_, ?_⟩
  · intro pre blob hg
    simp only [step]
    rw [if_neg]
    intro hc
    simp only [Bool.and_eq_true, Bool.not_eq_true'] at hc
    rcases hg with hg | hg | hg <;> simp [hg] at hc
  · intro outcome
    simp only [step]
    cases hp : (run evs).pending with
    | nil =>
      have hs : (run evs).sending = false := by
        rw [h1, hp]; rfl
      simpa using hs
    | cons op rest =>
      cases op <;> cases outcome <;> rfl

/-- Concrete event trace for the single-flight witness: start the camera,
then one capture tick (which puts a capture in flight). -/
def exEvents : List Event := [Event.start true true, Event.tick true true]

/-- Witness for C1 at a concrete trace with a capture in flight. -/
theorem captureLoop_single_flight_witness :
    (run exEvents).pending.length ≤ 1
    ∧ step (run exEvents) (Event.tick true true) = run exEvents
    ∧ (step (run exEvents) (Event.resolve (CaptureOutcome.fail ("boom")))).sending = false := by
  obtain ⟨a, b, c⟩ := captureLoop_single_flight exEvents
  exact ⟨a, b true true (Or.inr (Or.inr (by decide))), c _⟩

/-- Concrete recognition result arriving late, after the camera was
stopped. -/
def exScanC7 : ScanResponse :=
  { ocr := { results := [{ plate := some ("XYZ999"), score := 1 }] },
    vision := none, visionStatus := VisionStatus.error }

/-- Event trace for C7: start, put a capture in flight, stop the camera
(which clears `liveResult`), then the in-flight response resolves. -/
def exEventsC7 : List Event :=
  [Event.start true true, Event.tick true true, Event.stop,
   Event.resolve (CaptureOutcome.ok exScanC7)]

/-- C7 counterexample.  The claim says a late-arriving response is never
applied as the live result once the controller has left live mode; but
after start → tick → stop → resolve, the controller is idle (`ready =
false`, camera released) and yet the late response has been stored as the
live result — `captureFrame`'s handler applies it without checking state. -/
theorem late_result_after_stop_cex :
    (run exEventsC7).ready = false
    ∧ (run exEventsC7).stream = none
    ∧ (run exEventsC7).liveResult = some exScanC7 := by decide

/-- C7 (corrected).  Pausing or stopping never cancels an in-flight
capture (the pending operation is untouched) and only prevents new
captures from starting (a tick immediately after pause or stop is a
no-op); however the result handler does not consult the controller state:
when a capture is still in flight, its resolution stores the response as
the live result (or its error message) unconditionally, even after stop. -/
theorem late_result_after_stop_amended (s : ControllerState) (d : ScanResponse)
    (m : String) (rest : List Bool) :
    ((step s Event.pause).pending = s.pending)
    ∧ ((step s Event.stop).pending = s.pending)
    ∧ ((step s Event.pause).sending = s.sending)
    ∧ ((step s Event.stop).sending = s.sending)
    ∧ (∀ pre blob, step (step s Event.pause) (Event.tick pre blob) = step s Event.pause)
    ∧ (∀ pre blob, step (step s Event.stop) (Event.tick pre blob) = step s Event.stop)
    ∧ (s.pending = true :: rest →
        (step s (Event.resolve (CaptureOutcome.ok d))).liveResult = some d
        ∧ (step s (Event.resolve (CaptureOutcome.fail m))).liveError = some m) := by
  refine ⟨?_, ?_, ?_, ?_, ?_, ?_, ?_⟩
  · simp only [step]; split_ifs <;> rfl
  · rfl
  · simp only [step]; split_ifs <;> rfl
  · rfl
  · intro pre blob
    cases hr : s.ready <;> cases hpz : s.paused <;> simp [step, hr, hpz]
  · intro pre blob
    simp [step]
  · intro hp
    rw [show (Event.resolve (CaptureOutcome.ok d)) = Event.resolve (CaptureOutcome.ok d) from rfl]
    constructor
    · simp only [step]; rw [hp]; rfl
    · simp only [step]; rw [hp]; rfl

/-- Witness for C7 (amended) at a concrete state with a request in
flight and the camera already stopped. -/
theorem late_result_after_stop_amended_witness :
    (step (run [Event.start true true, Event.tick true true, Event.stop])
        (Event.resolve (CaptureOutcome.ok exScanC7))).liveResult = some exScanC7 := by
  have h := late_result_after_stop_amended
    (run [Event.start true true, Event.tick true true, Event.stop]) exScanC7 ("boom") []
  exact (h.2.2.2.2.2.2 (by decide)).1

/-- C9 (confirmed).  `pause` is effective only from the streaming state
(ready and not already paused); when effective it cancels the periodic
timer and sets the paused flag while leaving the camera stream, its
tracks, the video element, the in-flight guard and the last result
untouched, and afterwards no tick triggers a capture until resume. -/
theorem pause_keeps_camera (s : ControllerState) :
    (¬(s.ready = true ∧ s.paused = false) → step s Event.pause = s)
    ∧ (s.ready = true → s.paused = false →
        (step s Event.pause).stream = s.stream
        ∧ (step s Event.pause).videoSrc = s.videoSrc
        ∧ (step s Event.pause).ready = true
        ∧ (step s Event.pause).paused = true
        ∧ (step s Event.pause).timer = false
        ∧ (step s Event.pause).pending = s.pending
        ∧ (step s Event.pause).sending = s.sending
        ∧ (step s Event.pause).liveResult = s.liveResult
        ∧ (∀ pre blob, step (step s Event.pause) (Event.tick pre blob) = step s Event.pause)) := by
  constructor
  · intro hne
    simp only [step]
    rw [if_pos]
    cases hr : s.ready <;> cases hpz : s.paused <;> simp_all
  · intro hr hpz
    simp [step, hr, hpz]

/-- Witness for C9 at a concrete streaming state. -/
theorem pause_keeps_camera_witness :
    (step (run [Event.start true true]) Event.pause).stream = (run [Event.start true true]).stream
    ∧ (step (run [Event.start true true]) Event.pause).paused = true
    ∧ (step (run [Event.start true true]) Event.pause).timer = false := by
  have h := (pause_keeps_camera (run [Event.start true true])).2 (by decide) (by decide)
  exact ⟨h.1, h.2.2.2.1, h.2.2.2.2.1⟩

/-- Concrete successful OCR body for the gateway counterexamples. -/
def exOcrJson : OcrJson :=
  { results := [{ plate := some ("ABC123"), score := 1 }], detail := none }

/-- Concrete failed vision body (a non-2xx response with no `detail`). -/
def exVisFail : VisionApiResponse := { detection := none, detail := none }

/-- C2 counterexample.  The claim says that in the Concurrent variant an
OCR success combined with a vision failure yields the OCR results with
`visionStatus = error`; in fact the route returns an error response with
the vision upstream's status code and an error body carrying no OCR
results at all. -/
theorem concurrent_vision_failure_cex :
    concurrentPOST true true (FetchOutcome.resp true 200 exOcrJson)
        (FetchOutcome.resp false 503 exVisFail)
      = ⟨503, GatewayBody.errorBody ("Vision model request failed.")⟩
    ∧ ¬((concurrentPOST true true (FetchOutcome.resp true 200 exOcrJson)
        (FetchOutcome.resp false 503 exVisFail)).status = 200) := by decide

/-- C2 (corrected).  In the Concurrent gateway variant a vision-only
failure fails the whole call: when OCR succeeds but vision answers
non-2xx, the route responds with the vision status code and an error body
(the vision `detail` or a default reason); when the vision fetch fails at
the transport level the catch-all produces a 500 error; in neither case
are the OCR results returned. -/
theorem concurrent_vision_failure_amended (ocrStatus : Nat) (ocrBody : OcrJson)
    (vision : FetchOutcome VisionApiResponse) (hf : visionFailed vision = true) :
    (∀ vs vb, vision = FetchOutcome.resp false vs vb →
        concurrentPOST true true (FetchOutcome.resp true ocrStatus ocrBody) vision
          = ⟨vs, GatewayBody.errorBody (orDefault vb.detail ("Vision model request failed."))⟩)
    ∧ (∀ m, vision = FetchOutcome.transportFail m →
        concurrentPOST true true (FetchOutcome.resp true ocrStatus ocrBody) vision
          = ⟨500, GatewayBody.errorBody ("Unexpected server error. Please try again.")⟩)
    ∧ (∀ o v, ¬((concurrentPOST true true (FetchOutcome.resp true ocrStatus ocrBody) vision).body
          = GatewayBody.okBody o v)) := by
  refine ⟨?_, ?_, ?_⟩
  · intro vs vb hv
    subst hv
    rfl
  · intro m hv
    subst hv
    rfl
  · intro o v
    cases vision with
    | transportFail m => simp [concurrentPOST]
    | resp ok st body =>
      cases ok with
      | false => simp [concurrentPOST]
      | true => simp [visionFailed] at hf

/-- Witness for C2 (amended) at a concrete vision failure. -/
theorem concurrent_vision_failure_amended_witness :
    concurrentPOST true true (FetchOutcome.resp true 200 exOcrJson)
        (FetchOutcome.resp false 502 exVisFail)
      = ⟨502, GatewayBody.errorBody (orDefault exVisFail.detail ("Vision model request failed."))⟩ := by
  have h := concurrent_vision_failure_amended 200 exOcrJson
    (FetchOutcome.resp false 502 exVisFail) (by decide)
  exact h.1 502 exVisFail rfl

/-- C8 (confirmed).  The Gated gateway variant consults vision first and
calls OCR only when vision succeeded and reported a positive
vehicle-detection status: whenever that gate is closed the response does
not depend on the OCR upstream at all and is a 200 OCR-skipped body with
an empty plate list and an explanatory reason; a vision-only failure
closes the gate (and hence never fails the call); when the gate is open
and OCR answers 2xx the response is the OCR pass-through marked
`ocrStatus = "success"`. -/
theorem gated_ocr_skip (vision : FetchOutcome VisionApiResponse)
    (ocr ocr2 : FetchOutcome OcrJson) :
    (gatedShouldCallOcr vision = false →
        gatedPOST true vision ocr = gatedPOST true vision ocr2
        ∧ (gatedPOST true vision ocr).status = 200
        ∧ (∃ reason vd vs ve, (gatedPOST true vision ocr).body
            = GatewayBody.gatedBody [] ("skipped") (some reason) vd vs ve))
    ∧ (visionFailed vision = true →
        gatedShouldCallOcr vision = false ∧ (gatedPOST true vision ocr).status = 200)
    ∧ (gatedShouldCallOcr vision = true →
        (gatedVisionOutcome vision).2.1 = VisionStatus.success
        ∧ (∀ st body, ocr = FetchOutcome.resp true st body →
            gatedPOST true vision ocr
              = ⟨200, GatewayBody.gatedBody body.results ("success") none
                  (gatedVisionOutcome vision).1 (gatedVisionOutcome vision).2.1
                  (gatedVisionOutcome vision).2.2⟩)) := by
  have hclosed : gatedShouldCallOcr vision = false →
      ∀ o : FetchOutcome OcrJson,
        gatedPOST true vision o
          = ⟨200, GatewayBody.gatedBody [] ("skipped")
              (some (if (gatedVisionOutcome vision).2.1 == VisionStatus.success
                     then "Vehicle not detected, OCR skipped."
                     else (gatedVisionOutcome vision).2.2.getD ("Vision model unavailable, OCR skipped.")))
              (gatedVisionOutcome vision).1 (gatedVisionOutcome vision).2.1
              (gatedVisionOutcome vision).2.2⟩ := by
    intro hg o
    simp [gatedPOST, hg]
  have hfailClosed : visionFailed vision = true → gatedShouldCallOcr vision = false := by
    intro hf
    cases vision with
    | transportFail m => simp [gatedShouldCallOcr, gatedVisionOutcome]
    | resp ok st body =>
      cases ok with
      | false => simp [gatedShouldCallOcr, gatedVisionOutcome]
      | true => simp [visionFailed] at hf
  refine ⟨?_, ?_, ?_⟩
  · intro hg
    refine ⟨?_, ?_, ?_⟩
    · rw [hclosed hg ocr, hclosed hg ocr2]
    · rw [hclosed hg ocr]
    · rw [hclosed hg ocr]
      exact ⟨_, _, _, _, rfl⟩
  · intro hf
    have hg := hfailClosed hf
    exact ⟨hg, by rw [hclosed hg ocr]⟩
  · intro hg
    constructor
    · have : ((gatedVisionOutcome vision).2.1 == VisionStatus.success) = true := by
        have := hg
        simp only [gatedShouldCallOcr, Bool.and_eq_true] at this
        exact this.1
      simpa using this
    · intro st body hocr
      subst hocr
      simp [gatedPOST, hg]

/-- Concrete vision body reporting a detected vehicle. -/
def exVisDetected : VisionApiResponse :=
  { detection := some { status := some ("Detected") }, detail := none }

/-- Witness for C8: a vision transport failure closes the gate and yields
a 200 OCR-skipped response, and a detected vehicle opens the gate. -/
theorem gated_ocr_skip_witness :
    gatedPOST true (FetchOutcome.transportFail ("down")) (FetchOutcome.resp true 200 exOcrJson)
      = gatedPOST true (FetchOutcome.transportFail ("down")) (FetchOutcome.transportFail ("x"))
    ∧ (gatedPOST true (FetchOutcome.transportFail ("down")) (FetchOutcome.resp true 200 exOcrJson)).status = 200
    ∧ gatedPOST true (FetchOutcome.resp true 200 exVisDetected) (FetchOutcome.resp true 200 exOcrJson)
        = ⟨200, GatewayBody.gatedBody exOcrJson.results ("success") none
            (gatedVisionOutcome (FetchOutcome.resp true 200 exVisDetected)).1
            (gatedVisionOutcome (FetchOutcome.resp true 200 exVisDetected)).2.1
            (gatedVisionOutcome (FetchOutcome.resp true 200 exVisDetected)).2.2⟩ := by
  have h1 := gated_ocr_skip (FetchOutcome.transportFail ("down"))
    (FetchOutcome.resp true 200 exOcrJson) (FetchOutcome.transportFail ("x"))
  have h2 := gated_ocr_skip (FetchOutcome.resp true 200 exVisDetected)
    (FetchOutcome.resp true 200 exOcrJson) (FetchOutcome.resp true 200 exOcrJson)
  have hg := (h1.2.1 (by decide)).1
  exact ⟨(h1.1 hg).1, (h1.1 hg).2.1, (h2.2.2 (by decide)).2 200 exOcrJson rfl⟩

theorem compliance_found (db : List CarRecord) (r : ScanResponse) (p : String)
    (rec : CarRecord)
    (hp : primaryPlate r = some p) (hpe : (p == "") = false)
    (hv : visionAvailable r = true)
    (hrec : db.find? (fun entry => entry.plate == p) = some rec) :
    compliance db r =
      (if (mismatchesFor rec r).isEmpty then ComplianceState.matchFound rec
       else ComplianceState.mismatch rec (mismatchesFor rec r)) := by
  simp [compliance, hp, hpe, hv, hrec]

/-- Number of colon characters in a string; used to tell the two kinds of
mismatch message apart. -/
def countColons (s : String) : Nat := s.data.count (Char.ofNat 58)

theorem data_append (a b : String) : (a ++ b).data = a.data ++ b.data := by
  cases a
  cases b
  rfl

theorem countColons_append (a b : String) :
    countColons (a ++ b) = countColons a + countColons b := by
  simp [countColons, data_append, List.count_append]

theorem string_ne_of_countColons (s t : String)
    (h : ¬(countColons s = countColons t)) : ¬(s = t) :=
  fun he => h (by rw [he])

theorem noMakePredictionsMsg_ne_wrongMakeMsg (m : String) (labels : List String) :
    ¬(noMakePredictionsMsg m = wrongMakeMsg m labels) := by
  apply string_ne_of_countColons
  simp only [noMakePredictionsMsg, wrongMakeMsg, countColons_append]
  have c1 : countColons ("Expected make \"") = 0 := by decide
  have c2 : countColons ("\" but no make predictions were returned.") = 0 := by decide
  have c3 : countColons ("\" but predictions were: ") = 1 := by decide
  have c4 : countColons (".") = 0 := by decide
  omega

theorem noModelPredictionsMsg_ne_wrongModelMsg (m : String) (labels : List String) :
    ¬(noModelPredictionsMsg m = wrongModelMsg m labels) := by
  apply string_ne_of_countColons
  simp only [noModelPredictionsMsg, wrongModelMsg, countColons_append]
  have c1 : countColons ("Expected model \"") = 0 := by decide
  have c2 : countColons ("\" but no model predictions were returned.") = 0 := by decide
  have c3 : countColons ("\" but predictions were: ") = 1 := by decide
  have c4 : countColons (".") = 0 := by decide
  omega

/-- C3 (confirmed).  With a usable plate, an available vision payload and
a matching registry record: when the registry make (after trimming) is
non-empty, the make comparison requires the normalised make to appear
among the normalised top-3 make predictions — membership yields no
reason, zero returned predictions yield the dedicated "no make
predictions were returned" reason, and a missing value among non-empty
predictions yields the "wrong value" reason, the two reasons being
distinct strings; likewise for the model against the top-3 model
predictions; and all accumulated reasons surface through the verdict. -/
theorem compliance_make_model_top3 (db : List CarRecord) (r : ScanResponse)
    (p : String) (rec : CarRecord)
    (hp : primaryPlate r = some p) (hpe : (p == "") = false)
    (hv : visionAvailable r = true)
    (hrec : db.find? (fun entry => entry.plate == p) = some rec) :
    (compliance db r =
      (if (mismatchesFor rec r).isEmpty then ComplianceState.matchFound rec
       else ComplianceState.mismatch rec (mismatchesFor rec r)))
    ∧ (¬(normValue rec.make = "") →
        ((makePredictions (topMakeLabels r)).contains (normValue rec.make) = true →
            makeReasons rec (topMakeLabels r) = [])
        ∧ (∀ v, r.vision = some v → v.makes = [] →
            makeReasons rec (topMakeLabels r) = [noMakePredictionsMsg rec.make])
        ∧ (¬(makePredictions (topMakeLabels r) = []) →
            (makePredictions (topMakeLabels r)).contains (normValue rec.make) = false →
            makeReasons rec (topMakeLabels r) = [wrongMakeMsg rec.make (topMakeLabels r)])
        ∧ ¬(noMakePredictionsMsg rec.make = wrongMakeMsg rec.make (topMakeLabels r)))
    ∧ (¬(normValue rec.model = "") →
        ((makePredictions (topModelLabels r)).contains (normValue rec.model) = true →
            modelReasons rec (topModelLabels r) = [])
        ∧ (∀ v, r.vision = some v → v.models = [] →
            modelReasons rec (topModelLabels r) = [noModelPredictionsMsg rec.model])
        ∧ (¬(makePredictions (topModelLabels r) = []) →
            (makePredictions (topModelLabels r)).contains (normValue rec.model) = false →
            modelReasons rec (topModelLabels r) = [wrongModelMsg rec.model (topModelLabels r)])
        ∧ ¬(noModelPredictionsMsg rec.model = wrongModelMsg rec.model (topModelLabels r))) := by
  refine ⟨compliance_found db r p rec hp hpe hv hrec, ?_, ?_⟩
  · intro hm
    have hm' : (normValue rec.make == "") = false := by
      simpa using hm
    refine ⟨?_, ?_, ?_, noMakePredictionsMsg_ne_wrongMakeMsg rec.make (topMakeLabels r)⟩
    · intro hc
      have hne : ¬(makePredictions (topMakeLabels r) = []) := by
        intro h0
        rw [h0] at hc
        simp at hc
      simp [makeReasons, hm', List.isEmpty_iff, hne, hc]
      simpa using hc
    · intro v hvv hmakes
      have hlab : topMakeLabels r = [] := by
        simp [topMakeLabels, hvv, hmakes]
      simp [makeReasons, hm', hlab, makePredictions]
    · intro hne hc
      simp [makeReasons, hm', List.isEmpty_iff, hne, hc]
      simpa using hc
  · intro hm
    have hm' : (normValue rec.model == "") = false := by
      simpa using hm
    refine ⟨?_, ?_, ?_, noModelPredictionsMsg_ne_wrongModelMsg rec.model (topModelLabels r)⟩
    · intro hc
      have hne : ¬(makePredictions (topModelLabels r) = []) := by
        intro h0
        rw [h0] at hc
        simp at hc
      simp [modelReasons, hm', List.isEmpty_iff, hne, hc]
      simpa using hc
    · intro v hvv hmodels
      have hlab : topModelLabels r = [] := by
        simp [topModelLabels, hvv, hmodels]
      simp [modelReasons, hm', hlab, makePredictions]
    · intro hne hc
      simp [modelReasons, hm', List.isEmpty_iff, hne, hc]
      simpa using hc

/-- Registry and scan used as concrete witness input for the compliance
claims: plate ABC123 registered as a white Toyota Corolla, vision ranking
Toyota among the top-3 makes but reporting model "Camry" only. -/
def exRec3 : CarRecord :=
  { plate := "ABC123", make := "Toyota", model := "Corolla", color := "white",
    wanted := false }

def exDb3 : List CarRecord := [exRec3]

def exScan3 : ScanResponse :=
  { ocr := { results := [{ plate := some ("abc123"), score := 1 }] },
    vision := some
      { makes := [{ label := "Honda", confidence := 1 }, { label := "Toyota", confidence := 1 }],
        models := [{ label := "Camry", confidence := 1 }],
        color := some { name := "White", confidence := 1 } },
    visionStatus := VisionStatus.success }

/-- Witness for C3 at the concrete scan: the make is among the top-3 so
no make reason is produced; the model is absent from non-empty
predictions so the "wrong value" model reason is produced, and it differs
from the "no predictions" reason. -/
theorem compliance_make_model_top3_witness :
    makeReasons exRec3 (topMakeLabels exScan3) = []
    ∧ modelReasons exRec3 (topModelLabels exScan3) = [wrongModelMsg ("Corolla") (topModelLabels exScan3)]
    ∧ ¬(noModelPredictionsMsg ("Corolla") = wrongModelMsg ("Corolla") (topModelLabels exScan3)) := by
  have h := compliance_make_model_top3 exDb3 exScan3 ("ABC123") exRec3
    (by decide) (by decide) (by decide) (by decide)
  have hmk := h.2.1 (by decide)
  have hmd := h.2.2 (by decide)
  exact ⟨hmk.1 (by decide), hmd.2.2.1 (by decide) (by decide), hmd.2.2.2⟩

/-- C6 (confirmed).  When the top plate candidate is usable but the
vision status is not success, the verdict is `vision-missing` carrying
exactly the registry lookup of the canonicalised plate (the record when
found, nothing otherwise), with no field comparison performed. -/
theorem vision_missing_verdict (db : List CarRecord) (r : ScanResponse) (p : String)
    (hp : primaryPlate r = some p) (hpe : (p == "") = false)
    (hs : ¬(r.visionStatus = VisionStatus.success)) :
    compliance db r
      = ComplianceState.visionMissing (db.find? (fun entry => entry.plate == p)) := by
  have hv : visionAvailable r = false := by
    cases hstat : r.visionStatus with
    | success => exact absurd hstat hs
    | error => simp [visionAvailable, hstat]
  simp [compliance, hp, hpe, hv]

/-- Scan with a usable plate but failed vision, for the C6 witness. -/
def exScan6 : ScanResponse :=
  { ocr := { results := [{ plate := some ("abc123"), score := 1 }] },
    vision := none, visionStatus := VisionStatus.error }

/-- Witness for C6: failed vision yields `vision-missing` with the found
registry record attached. -/
theorem vision_missing_verdict_witness :
    compliance exDb3 exScan6
      = ComplianceState.visionMissing (exDb3.find? (fun entry => entry.plate == "ABC123")) :=
  vision_missing_verdict exDb3 exScan6 ("ABC123") (by decide) (by decide) (by decide)

/-- C10 (confirmed).  Implicit leniency: a registry field that trims to
the empty string is skipped entirely — it never contributes a mismatch
reason, even against non-empty differing predictions — and a found record
whose make, model and colour are all blank always yields a `match`
verdict when vision is available. -/
theorem blank_field_leniency (rec : CarRecord) (labels labels2 : List String)
    (colorLabel : Option String) (db : List CarRecord) (r : ScanResponse) (p : String) :
    (normValue rec.make = "" → makeReasons rec labels = [])
    ∧ (normValue rec.model = "" → modelReasons rec labels2 = [])
    ∧ (normValue rec.color = "" → colorReasons rec colorLabel = [])
    ∧ (primaryPlate r = some p → (p == "") = false →
        db.find? (fun entry => entry.plate == p) = some rec →
        visionAvailable r = true →
        normValue rec.make = "" → normValue rec.model = "" → normValue rec.color = "" →
        compliance db r = ComplianceState.matchFound rec) := by
  refine ⟨?_, ?_, ?_, ?_⟩
  · intro h
    simp [makeReasons, h]
  · intro h
    simp [modelReasons, h]
  · intro h
    cases colorLabel with
    | none => simp [colorReasons, normalizeValue]
    | some c => simp [colorReasons, normalizeValue, h]
  · intro hp hpe hrec hv hmk hmd hcl
    have hempty : mismatchesFor rec r = [] := by
      simp [mismatchesFor, makeReasons, modelReasons, hmk, hmd]
      cases hc : topColorLabel r with
      | none => simp [colorReasons, hc, normalizeValue]
      | some c => simp [colorReasons, hc, normalizeValue, hcl]
    rw [compliance_found db r p rec hp hpe hv hrec, hempty]
    rfl

/-- All-blank registry record for the C10 witness. -/
def exRec10 : CarRecord :=
  { plate := "QQQ000", make := " ", model := "", color := "  ", wanted := false }

def exDb10 : List CarRecord := [exRec10]

/-- Scan for the C10 witness: vision returns non-empty, differing
predictions for every field. -/
def exScan10 : ScanResponse :=
  { ocr := { results := [{ plate := some ("qqq000"), score := 1 }] },
    vision := some
      { makes := [{ label := "Honda", confidence := 1 }],
        models := [{ label := "Civic", confidence := 1 }],
        color := some { name := "red", confidence := 1 } },
    visionStatus := VisionStatus.success }

/-- Witness for C10: the all-blank record matches despite differing
non-empty predictions. -/
theorem blank_field_leniency_witness :
    makeReasons exRec10 [("Honda")] = []
    ∧ colorReasons exRec10 (some ("red")) = []
    ∧ compliance exDb10 exScan10 = ComplianceState.matchFound exRec10 := by
  have h := blank_field_leniency exRec10 [("Honda")] [("Civic")] (some ("red"))
    exDb10 exScan10 ("QQQ000")
  exact ⟨h.1 (by decide), h.2.2.1 (by decide),
    h.2.2.2 (by decide) (by decide) (by decide) (by decide) (by decide) (by decide) (by decide)⟩

/-- C4 (confirmed).  Colour is asymmetric with make/model: with a found
record, available vision and a (trimmed) non-blank registry colour — a
blank registry colour is skipped under the C10 leniency, and the spec's
comparisons are whitespace-trimmed — a vision-provided dominant colour
that differs case-insensitively produces exactly the colour mismatch
reason (and a mismatch verdict), while an absent vision colour
contributes no reason at all: the verdict then depends only on the make
and model reasons. -/
theorem compliance_color_asymmetry (db : List CarRecord) (r : ScanResponse)
    (p : String) (rec : CarRecord)
    (hp : primaryPlate r = some p) (hpe : (p == "") = false)
    (hv : visionAvailable r = true)
    (hrec : db.find? (fun entry => entry.plate == p) = some rec)
    (hcolor : ¬(normValue rec.color = "")) :
    (∀ c, topColorLabel r = some c → ¬(normValue c = "") →
        ¬(normValue rec.color = normValue c) →
        colorReasons rec (topColorLabel r) = [colorMsg rec.color (topColorLabel r)]
        ∧ colorMsg rec.color (topColorLabel r) ∈ mismatchesFor rec r
        ∧ compliance db r = ComplianceState.mismatch rec (mismatchesFor rec r))
    ∧ (topColorLabel r = none →
        colorReasons rec (topColorLabel r) = []
        ∧ compliance db r =
            (if (makeReasons rec (topMakeLabels r)
                  ++ modelReasons rec (topModelLabels r)).isEmpty
             then ComplianceState.matchFound rec
             else ComplianceState.mismatch rec
               (makeReasons rec (topMakeLabels r) ++ modelReasons rec (topModelLabels r)))) := by
  constructor
  · intro c hc hcne hdiff
    have hcr : colorReasons rec (topColorLabel r) = [colorMsg rec.color (topColorLabel r)] := by
      rw [hc]
      simp [colorReasons, normalizeValue, hcolor, hcne, hdiff]
    have hmem : colorMsg rec.color (topColorLabel r) ∈ mismatchesFor rec r := by
      simp [mismatchesFor, hcr]
    have hne : (mismatchesFor rec r).isEmpty = false := by
      rw [List.isEmpty_eq_false_iff_exists_mem]
      exact ⟨_, hmem⟩
    refine ⟨hcr, hmem, ?_⟩
    rw [compliance_found db r p rec hp hpe hv hrec, hne]
    rfl
  · intro hc
    have hcr : colorReasons rec (topColorLabel r) = [] := by
      rw [hc]
      simp [colorReasons, normalizeValue]
    have hmm : mismatchesFor rec r
        = makeReasons rec (topMakeLabels r) ++ modelReasons rec (topModelLabels r) := by
      simp [mismatchesFor, hcr]
    refine ⟨hcr, ?_⟩
    rw [compliance_found db r p rec hp hpe hv hrec, hmm]

/-- Registry record with colour black for the C4 witness. -/
def exRec4 : CarRecord :=
  { plate := "ABC123", make := "", model := "", color := "black", wanted := false }

def exDb4 : List CarRecord := [exRec4]

/-- Scan for the C4 witness: vision detects colour "White". -/
def exScan4 : ScanResponse :=
  { ocr := { results := [{ plate := some ("abc123"), score := 1 }] },
    vision := some
      { makes := [], models := [],
        color := some { name := "White", confidence := 1 } },
    visionStatus := VisionStatus.success }

/-- Scan for the C4 witness with no vision colour provided. -/
def exScan4b : ScanResponse :=
  { ocr := { results := [{ plate := some ("abc123"), score := 1 }] },
    vision := some { makes := [], models := [], color := none },
    visionStatus := VisionStatus.success }

/-- Witness for C4: registry "black" against detected "White" produces
the colour mismatch reason and a mismatch verdict; with no vision colour
the colour branch contributes nothing and (make/model being blank) the
verdict is a match. -/
theorem compliance_color_asymmetry_witness :
    colorReasons exRec4 (topColorLabel exScan4) = [colorMsg ("black") (topColorLabel exScan4)]
    ∧ compliance exDb4 exScan4 = ComplianceState.mismatch exRec4 (mismatchesFor exRec4 exScan4)
    ∧ colorReasons exRec4 (topColorLabel exScan4b) = []
    ∧ compliance exDb4 exScan4b =
        (if (makeReasons exRec4 (topMakeLabels exScan4b)
              ++ modelReasons exRec4 (topModelLabels exScan4b)).isEmpty
         then ComplianceState.matchFound exRec4
         else ComplianceState.mismatch exRec4
           (makeReasons exRec4 (topMakeLabels exScan4b)
             ++ modelReasons exRec4 (topModelLabels exScan4b))) := by
  have h1 := compliance_color_asymmetry exDb4 exScan4 ("ABC123") exRec4
    (by decide) (by decide) (by decide) (by decide) (by decide)
  have h2 := compliance_color_asymmetry exDb4 exScan4b ("ABC123") exRec4
    (by decide) (by decide) (by decide) (by decide) (by decide)
  have ha := h1.1 ("White") (by decide) (by decide) (by decide)
  have hb := h2.2 (by decide)
  exact ⟨ha.1, ha.2.2, hb.1, hb.2⟩

/-- Registry for the C5 counterexample: only ZZZ999 is registered. -/
def exDb5 : List CarRecord :=
  [{ plate := "ZZZ999", make := "", model := "", color := "", wanted := false }]

/-- Scan for the C5 counterexample: the first OCR candidate has the
LOWER score and an untrimmed plate string; the second has the higher
score and is the registered plate. -/
def exScan5 : ScanResponse :=
  { ocr := { results := [{ plate := some (" zzz999 "), score := 0 },
                         { plate := some ("ZZZ999"), score := 1 }] },
    vision := some { makes := [], models := [], color := none },
    visionStatus := VisionStatus.success }

/-- C5 counterexample.  Per the claim the evaluator should pick the
highest-scoring candidate and canonicalise it by trim + uppercase, giving
"ZZZ999", which IS in the registry; the code instead takes the first
list element and uppercases without trimming, looks up " ZZZ999 " and
reports the plate as unknown. -/
theorem primary_plate_selection_cex :
    specCanonicalPlate exScan5.ocr.results = some ("ZZZ999")
    ∧ (exDb5.find? (fun entry => entry.plate == "ZZZ999")).isSome = true
    ∧ primaryPlate exScan5 = some (" ZZZ999 ")
    ∧ compliance exDb5 exScan5 = ComplianceState.unknown := by decide

/-- C5 (corrected).  The evaluator takes the FIRST candidate of the
upstream list (which is assumed to arrive ranked) rather than computing a
score maximum, returns `no-plate` when the list is empty, the plate field
is missing, or the plate uppercases to the empty string, and
canonicalises by uppercasing only — no trim — before the exact registry
lookup. -/
theorem primary_plate_selection_amended (db : List CarRecord) (r : ScanResponse) :
    (r.ocr.results = [] → compliance db r = ComplianceState.noPlate)
    ∧ (∀ res rest, r.ocr.results = res :: rest → res.plate = none →
        compliance db r = ComplianceState.noPlate)
    ∧ (∀ res rest q, r.ocr.results = res :: rest → res.plate = some q →
        primaryPlate r = some (toUpperStr q))
    ∧ (∀ res rest q, r.ocr.results = res :: rest → res.plate = some q →
        (toUpperStr q == "") = false → visionAvailable r = true →
        (compliance db r = ComplianceState.unknown ↔
          db.find? (fun entry => entry.plate == toUpperStr q) = none)) := by
  refine ⟨?_, ?_, ?_, ?_⟩
  · intro h
    simp [compliance, primaryPlate, topResult, h]
  · intro res rest h hplate
    simp [compliance, primaryPlate, topResult, h, hplate]
  · intro res rest q h hplate
    simp [primaryPlate, topResult, h, hplate]
  · intro res rest q h hplate hpe hv
    have hp : primaryPlate r = some (toUpperStr q) := by
      simp [primaryPlate, topResult, h, hplate]
    cases hfind : db.find? (fun entry => entry.plate == toUpperStr q) with
    | none =>
      simp only [hfind, iff_true]
      simp [compliance, hp, hpe, hv, hfind]
    | some rec =>
      have h1 : ¬(compliance db r = ComplianceState.unknown) := by
        rw [compliance_found db r (toUpperStr q) rec hp hpe hv hfind]
        split <;> simp
      exact iff_of_false h1 (by simp)

/-- Witness for C5 (amended) at the concrete counterexample scan. -/
theorem primary_plate_selection_amended_witness :
    primaryPlate exScan5 = some (toUpperStr (" zzz999 "))
    ∧ (compliance exDb5 exScan5 = ComplianceState.unknown ↔
        exDb5.find? (fun entry => entry.plate == toUpperStr (" zzz999 ")) = none) := by
  have h := primary_plate_selection_amended exDb5 exScan5
  exact ⟨h.2.2.1 _ _ _ rfl rfl, h.2.2.2 _ _ _ rfl rfl (by decide) (by decide)⟩
